import Mathlib

/-!
Shallow embedding of the LLM workflow example scripts
(`src/patterns/workflows/`): the local, deterministic logic of each
script is translated into Lean functions, while the remote model
endpoint is modelled as an oracle parameter (a function supplying the
parsed response or tool-call message the remote model would return).
Python exceptions are modelled with `Except`; a Python `Optional` value
is an `Option`; float confidence scores are modelled as rationals.
-/

/-- Role of a chat message (`system` / `user` / `assistant` / `tool`). -/
inductive Role where
  | system
  | user
  | assistant
  | tool
deriving DecidableEq, Repr

/-- A tool call produced by the remote model: identifier, function name
and the serialized (JSON string) argument payload, mirroring
`tool_call.id`, `tool_call.function.name`, `tool_call.function.arguments`. -/
structure ToolCall where
  id : String
  name : String
  arguments : String
deriving DecidableEq, Repr

/-- A chat message as the scripts build them: plain `role`/`content`
dicts, a `tool_call_id` when the role is `tool`, and the list of tool
calls when the message is an assistant message returned by the model. -/
structure Message where
  role : Role
  content : String
  tool_call_id : Option String := none
  tool_calls : List ToolCall := []
deriving DecidableEq, Repr

/-- Python `ValueError` raised by `call_function` on an unknown name. -/
inductive ToolError where
  | unknownTool (name : String)
deriving DecidableEq, Repr

/-- Python `AttributeError`: accessing an attribute of `None`. -/
inductive PyError where
  | attributeError
deriving DecidableEq, Repr

/-- Python attribute access `o.f` where `o` may be `None`: raises
`AttributeError` on `None`, otherwise projects the field. -/
def getAttr (o : Option α) (f : α → β) : Except PyError β :=
  match o with
  | none => Except.error PyError.attributeError
  | some v => Except.ok (f v)

namespace Tools
/-! Embedding of `1-introduction/3-tools.py` (weather tool calling). -/

/-- Deserialized arguments of the `get_weather` tool
(`latitude`/`longitude`, JSON numbers modelled as rationals). -/
structure WeatherArgs where
  latitude : Rat
  longitude : Rat
deriving DecidableEq, Repr

/-- Model of `WeatherResponse` pydantic model: the final structured answer. -/
structure WeatherResponse where
  temperature : Rat
  response : String
deriving DecidableEq, Repr

/-- Model of `call_function` of `3-tools.py`: dispatches `get_weather` to the
local implementation (abstracted as the function `get_weather`, since
the real one performs an HTTP request) and raises `ValueError` on any
other name. -/
def call_function (get_weather : WeatherArgs → δ) (name : String)
    (args : WeatherArgs) : Except ToolError δ :=
  if name = "get_weather" then Except.ok (get_weather args)
  else Except.error (ToolError.unknownTool name)

end Tools

namespace Retrieval
/-! Embedding of `1-introduction/4-retrieval.py` (knowledge-base lookup). -/

/-- Model of `fallback_answer` of `4-retrieval.py`: a pure string template. -/
def fallback_answer (question : String) : String :=
  "Sorry, I can only answer questions related to the e-commerce knowledge base. You asked: " ++ question

/-- Model of `call_function` of `4-retrieval.py`: dispatches `search_knowledge`
(abstracted, since it reads `kb.json` from disk; it is stringified
downstream, so its result is modelled as the string it produces) and
`fallback_answer`; raises `ValueError` on any other name. -/
def call_function (search_knowledge : String → String) (name : String)
    (args : String) : Except ToolError String :=
  if name = "search_knowledge" then Except.ok (search_knowledge args)
  else if name = "fallback_answer" then Except.ok (fallback_answer args)
  else Except.error (ToolError.unknownTool name)

end Retrieval

/-- One iteration of the tool-execution loop shared by `3-tools.py` and
`4-retrieval.py`: read the name, deserialize the arguments, append the
assistant message carrying the tool calls, execute the tool (which may
raise), and append the `tool`-role message with the stringified result
keyed by the invocation identifier. -/
def toolCallStep (exec : String → α → Except ToolError ρ)
    (json_loads : String → α) (str : ρ → String)
    (assistantMsg : Message) (msgs : List Message) (tc : ToolCall) :
    Except ToolError (List Message) := do
  let name := tc.name
  let args := json_loads tc.arguments
  let msgs := msgs ++ [assistantMsg]
  let result ← exec name args
  pure (msgs ++ [{ role := Role.tool, content := str result,
                   tool_call_id := some tc.id }])

/-- The `for tool_call in ... .tool_calls` loop of `3-tools.py` and
`4-retrieval.py`, folding `toolCallStep` over the invocation list. -/
def toolCallLoop (exec : String → α → Except ToolError ρ)
    (json_loads : String → α) (str : ρ → String)
    (assistantMsg : Message) (msgs : List Message) :
    List ToolCall → Except ToolError (List Message)
  | [] => Except.ok msgs
  | tc :: rest => do
      let msgs1 ← toolCallStep exec json_loads str assistantMsg msgs tc
      toolCallLoop exec json_loads str assistantMsg msgs1 rest

/-- The `tool`-role message the loop appends for invocation `tc`
(content is the stringified result when the tool call succeeds). -/
def toolMsgOf (exec : String → α → Except ToolError ρ)
    (json_loads : String → α) (str : ρ → String) (tc : ToolCall) : Message :=
  { role := Role.tool,
    content := match exec tc.name (json_loads tc.arguments) with
      | Except.ok r => str r
      | Except.error _ => "",
    tool_call_id := some tc.id }

/-- Shape of a successful run of the tool-execution loop: the message
list grows by exactly the interleaved assistant/tool pairs, and every
invocation's tool executed successfully. -/
theorem toolCallLoop_ok (exec : String → α → Except ToolError ρ)
    (json_loads : String → α) (str : ρ → String) (a : Message) :
    ∀ (calls : List ToolCall) (msgs out : List Message),
    toolCallLoop exec json_loads str a msgs calls = Except.ok out →
    out = msgs ++ calls.flatMap
        (fun tc => [a, toolMsgOf exec json_loads str tc]) ∧
    ∀ tc ∈ calls, ∃ r, exec tc.name (json_loads tc.arguments) = Except.ok r := by
  intro calls
  induction calls with
  | nil =>
      intro msgs out h
      simp [toolCallLoop] at h
      simp [h]
  | cons tc rest ih =>
      intro msgs out h
      simp only [toolCallLoop, toolCallStep, bind, Except.bind] at h
      cases hexec : exec tc.name (json_loads tc.arguments) with
      | error e => rw [hexec] at h; simp at h
      | ok r =>
          rw [hexec] at h
          simp only [pure, Except.pure] at h
          obtain ⟨hout, hall⟩ := ih _ _ h
          refine ⟨?_, ?_⟩
          · simp only [hout, toolMsgOf, hexec, List.flatMap_cons,
              List.append_assoc, List.cons_append, List.nil_append]
          · intro tc1 hmem
            rcases List.mem_cons.mp hmem with h1 | h1
            · exact ⟨r, h1 ▸ hexec⟩
            · exact hall tc1 h1

/-- Relation between adjacent messages: a `tool`-role message may only
stand right after an assistant message carrying a matching invocation. -/
def toolFollows (a b : Message) : Prop :=
  b.role = Role.tool → a.role = Role.assistant ∧
    ∃ tc ∈ a.tool_calls, some tc.id = b.tool_call_id

instance : DecidableRel toolFollows := fun a b =>
  inferInstanceAs (Decidable (b.role = Role.tool → a.role = Role.assistant ∧
    ∃ tc ∈ a.tool_calls, some tc.id = b.tool_call_id))

/-- Causal ordering of a message sequence: it does not start with a
`tool` message, and every `tool` message immediately follows an
assistant message containing the invocation with matching identifier. -/
def causallyOrdered (msgs : List Message) : Prop :=
  (∀ m ∈ msgs.head?, m.role ≠ Role.tool) ∧ List.Chain' toolFollows msgs

instance : DecidablePred causallyOrdered := fun msgs =>
  inferInstanceAs (Decidable ((∀ m ∈ msgs.head?, m.role ≠ Role.tool) ∧
    List.Chain' toolFollows msgs))

/-- Appending an assistant message and a matching tool message keeps a
message sequence causally ordered. -/
theorem causallyOrdered_append_pair (msgs : List Message) (a t : Message)
    (hmsgs : causallyOrdered msgs) (hA : a.role = Role.assistant)
    (hT : toolFollows a t) :
    causallyOrdered (msgs ++ [a, t]) := by
  obtain ⟨hhead, hchain⟩ := hmsgs
  constructor
  · intro m hm
    cases msgs with
    | nil =>
        simp at hm
        subst hm
        simp [hA]
    | cons x xs =>
        simp at hm
        exact hhead m (by simp [hm])
  · rw [List.chain'_append]
    refine ⟨hchain, ?_, ?_⟩
    · exact List.chain'_pair.mpr hT
    · intro x _ y hy
      simp at hy
      subst hy
      intro hcontra
      rw [hA] at hcontra
      cases hcontra

/-- A successful `toolCallStep` appends exactly the assistant message
and one matching `tool` message, so it preserves causal ordering. -/
theorem toolCallStep_causal (exec : String → α → Except ToolError ρ)
    (json_loads : String → α) (str : ρ → String) (a : Message)
    (msgs out : List Message) (tc : ToolCall)
    (hA : a.role = Role.assistant) (hmem : tc ∈ a.tool_calls)
    (hmsgs : causallyOrdered msgs)
    (hok : toolCallStep exec json_loads str a msgs tc = Except.ok out) :
    causallyOrdered out := by
  simp only [toolCallStep, bind, Except.bind] at hok
  cases hexec : exec tc.name (json_loads tc.arguments) with
  | error e => rw [hexec] at hok; cases hok
  | ok r =>
      rw [hexec] at hok
      simp only [pure, Except.pure, Except.ok.injEq] at hok
      subst hok
      rw [List.append_assoc]
      exact causallyOrdered_append_pair msgs a _ hmsgs hA
        (fun _ => ⟨hA, tc, hmem, rfl⟩)

/-- A successful run of the whole tool-execution loop preserves causal
ordering, provided every invocation it processes is carried by the
assistant message it re-appends. -/
theorem toolCallLoop_causal (exec : String → α → Except ToolError ρ)
    (json_loads : String → α) (str : ρ → String) (a : Message)
    (hA : a.role = Role.assistant) :
    ∀ (calls : List ToolCall) (msgs out : List Message),
    (∀ tc ∈ calls, tc ∈ a.tool_calls) →
    causallyOrdered msgs →
    toolCallLoop exec json_loads str a msgs calls = Except.ok out →
    causallyOrdered out := by
  intro calls
  induction calls with
  | nil =>
      intro msgs out _ hmsgs h
      simp [toolCallLoop] at h
      exact h ▸ hmsgs
  | cons tc rest ih =>
      intro msgs out hsub hmsgs h
      simp only [toolCallLoop, bind, Except.bind] at h
      cases hstep : toolCallStep exec json_loads str a msgs tc with
      | error e => rw [hstep] at h; cases h
      | ok msgs1 =>
          rw [hstep] at h
          exact ih msgs1 out (fun x hx => hsub x (List.mem_cons_of_mem _ hx))
            (toolCallStep_causal exec json_loads str a msgs msgs1 tc hA
              (hsub tc (List.mem_cons_self _ _)) hmsgs hstep) h

namespace Tools

/-- The system prompt of `3-tools.py`. -/
def system_prompt : String :=
  "\n        You are a weather assistant, skilled in explaining weather information with exact information in real-time.\n        You should give some more useful information about the weather in general, instead of only the exact information asked by user.\n"

/-- The initial conversation of `3-tools.py`. -/
def initial_messages : List Message :=
  [{ role := Role.system, content := system_prompt },
   { role := Role.user, content := "What is the weather like in Paris today?" }]

/-- Steps 3-4 of `3-tools.py`: starting from the initial conversation,
run the tool-execution loop over the tool calls of the first
completion's message (`response_message`), then issue the final
structured request (`completion_2`, modelled by the oracle
`parse_final`) on the resulting message list. -/
def weather_script (get_weather : WeatherArgs → δ)
    (json_loads : String → WeatherArgs) (str : δ → String)
    (response_message : Message)
    (parse_final : List Message → Option WeatherResponse) :
    Except ToolError (List Message × Option WeatherResponse) := do
  let messages := initial_messages
  let messages ← toolCallLoop (call_function get_weather) json_loads str
      response_message messages response_message.tool_calls
  pure (messages, parse_final messages)

/-- Step 5 of `3-tools.py`: `final_response.temperature` and
`final_response.response` are accessed with no `None` check. -/
def final_response_access (parsed : Option WeatherResponse) :
    Except PyError (Rat × String) := do
  let t ← getAttr parsed WeatherResponse.temperature
  let r ← getAttr parsed WeatherResponse.response
  pure (t, r)

end Tools

namespace Sample
/-! Concrete instantiations used by witnesses. -/

def get_weather (a : Tools.WeatherArgs) : Rat := a.latitude

def json_loads_w (_ : String) : Tools.WeatherArgs := ⟨1, 2⟩

def str_r (_ : Rat) : String := "1"

def tc : ToolCall := ⟨"call1", "get_weather", "args"⟩

def respMsg : Message := ⟨Role.assistant, "", none, [tc]⟩

def parse_final (_ : List Message) : Option Tools.WeatherResponse := none

def toolMsg : Message := ⟨Role.tool, "1", some "call1", []⟩

def finalMsgs : List Message := Tools.initial_messages ++ [respMsg, toolMsg]

end Sample

/-- C4: when the weather script completes its tool loop, every
ToolInvocation of the first completion has been executed locally with a
successful result, its `tool`-role message (identifier-keyed,
stringified result) is in the message list, and the final structured
completion is issued on exactly that message list. -/
theorem C4_weather_tools_resolved_before_final
    (get_weather : Tools.WeatherArgs → δ)
    (json_loads : String → Tools.WeatherArgs) (str : δ → String)
    (response_message : Message)
    (parse_final : List Message → Option Tools.WeatherResponse)
    (finalMsgs : List Message) (ans : Option Tools.WeatherResponse)
    (hok : Tools.weather_script get_weather json_loads str response_message
        parse_final = Except.ok (finalMsgs, ans)) :
    ∀ tc ∈ response_message.tool_calls,
      (∃ r, Tools.call_function get_weather tc.name (json_loads tc.arguments)
          = Except.ok r) ∧
      toolMsgOf (Tools.call_function get_weather) json_loads str tc ∈ finalMsgs ∧
      ans = parse_final finalMsgs := by
  simp only [Tools.weather_script, bind, Except.bind] at hok
  cases hloop : toolCallLoop (Tools.call_function get_weather) json_loads str
      response_message Tools.initial_messages response_message.tool_calls with
  | error e => rw [hloop] at hok; cases hok
  | ok m =>
      rw [hloop] at hok
      simp only [pure, Except.pure, Except.ok.injEq, Prod.mk.injEq] at hok
      obtain ⟨hm, hans⟩ := hok
      subst hm
      obtain ⟨hshape, hall⟩ := toolCallLoop_ok _ _ _ _ _ _ _ hloop
      intro tc hmem
      refine ⟨hall tc hmem, ?_, hans.symm⟩
      rw [hshape]
      refine List.mem_append_right _ ?_
      exact List.mem_flatMap.mpr ⟨tc, hmem, by simp⟩

/-- Witness for C4: a concrete one-invocation response message. -/
theorem C4_weather_tools_resolved_before_final_witness :
    toolMsgOf (Tools.call_function Sample.get_weather) Sample.json_loads_w
        Sample.str_r Sample.tc ∈ Sample.finalMsgs :=
  (C4_weather_tools_resolved_before_final Sample.get_weather Sample.json_loads_w
    Sample.str_r Sample.respMsg Sample.parse_final Sample.finalMsgs none
    rfl Sample.tc (by decide)).2.1

/-- C5: in the tool-execution loop shared by the weather and retrieval
scripts, causal ordering (every `tool` message immediately follows an
assistant message carrying the matching invocation) holds after each
iteration and at the moment the conversation is re-submitted. -/
theorem C5_causal_order_invariant
    (exec : String → α → Except ToolError ρ) (json_loads : String → α)
    (str : ρ → String) (a : Message) (msgs : List Message)
    (hA : a.role = Role.assistant) (hmsgs : causallyOrdered msgs) :
    (∀ tc ∈ a.tool_calls, ∀ out,
        toolCallStep exec json_loads str a msgs tc = Except.ok out →
        causallyOrdered out) ∧
    (∀ out, toolCallLoop exec json_loads str a msgs a.tool_calls
        = Except.ok out → causallyOrdered out) := by
  constructor
  · intro tc hmem out hok
    exact toolCallStep_causal exec json_loads str a msgs out tc hA hmem hmsgs hok
  · intro out hok
    exact toolCallLoop_causal exec json_loads str a hA a.tool_calls msgs out
      (fun _ hx => hx) hmsgs hok

/-- The weather script's initial conversation (system and user message)
is causally ordered. -/
theorem initial_messages_causal : causallyOrdered Tools.initial_messages := by
  constructor
  · intro m hm
    simp [Tools.initial_messages] at hm
    subst hm
    intro h
    cases h
  · simp only [Tools.initial_messages, List.chain'_cons, List.chain'_singleton,
      and_true]
    intro h
    cases h

/-- Witness for C5: a concrete loop run starting from the weather
script's initial conversation. -/
theorem C5_causal_order_invariant_witness :
    causallyOrdered Sample.finalMsgs :=
  (C5_causal_order_invariant (Tools.call_function Sample.get_weather)
      Sample.json_loads_w Sample.str_r Sample.respMsg Tools.initial_messages
      rfl initial_messages_causal).2 Sample.finalMsgs rfl

/-- Length of the interleaved assistant/tool pair list appended by the
tool-execution loop. -/
theorem flatMap_pair_length (a : Message) (f : ToolCall → Message) :
    ∀ calls : List ToolCall,
    (calls.flatMap fun tc => [a, f tc]).length = 2 * calls.length := by
  intro calls
  induction calls with
  | nil => simp
  | cons tc rest ih =>
      simp only [List.flatMap_cons, List.length_append, ih, List.length_cons,
        List.length_nil]
      ring

/-- C10: a successful run of the tool-execution loop over `n`
invocations grows the message list by exactly `2n` entries, namely one
copy of the same assistant message per invocation, each immediately
followed by the corresponding `tool`-role message keyed by that
invocation's identifier. -/
theorem C10_loop_growth (exec : String → α → Except ToolError ρ)
    (json_loads : String → α) (str : ρ → String) (a : Message)
    (calls : List ToolCall) (msgs out : List Message)
    (hok : toolCallLoop exec json_loads str a msgs calls = Except.ok out) :
    out = msgs ++ calls.flatMap
        (fun tc => [a, toolMsgOf exec json_loads str tc]) ∧
    out.length = msgs.length + 2 * calls.length ∧
    ∀ tc ∈ calls, (toolMsgOf exec json_loads str tc).role = Role.tool ∧
      (toolMsgOf exec json_loads str tc).tool_call_id = some tc.id := by
  obtain ⟨hshape, -⟩ := toolCallLoop_ok exec json_loads str a calls msgs out hok
  refine ⟨hshape, ?_, ?_⟩
  · rw [hshape, List.length_append, flatMap_pair_length]
  · intro tc _
    exact ⟨rfl, rfl⟩

/-- Witness for C10: one invocation grows the conversation by two
entries. -/
theorem C10_loop_growth_witness :
    Sample.finalMsgs.length
      = Tools.initial_messages.length + 2 * [Sample.tc].length :=
  (C10_loop_growth (Tools.call_function Sample.get_weather) Sample.json_loads_w
    Sample.str_r Sample.respMsg [Sample.tc] Tools.initial_messages
    Sample.finalMsgs rfl).2.1

/-- C1: an invocation naming a tool outside the local registry makes
`call_function` raise the unknown-tool error, and an invocation naming
a registered tool returns that tool applied to the deserialized
arguments, in both the weather and the retrieval script. -/
theorem C1_call_function_registry
    (get_weather : Tools.WeatherArgs → δ) (search_knowledge : String → String)
    (name : String) (wargs : Tools.WeatherArgs) (rargs : String) :
    (name ≠ "get_weather" →
      Tools.call_function get_weather name wargs
        = Except.error (ToolError.unknownTool name)) ∧
    (name ≠ "search_knowledge" → name ≠ "fallback_answer" →
      Retrieval.call_function search_knowledge name rargs
        = Except.error (ToolError.unknownTool name)) ∧
    Tools.call_function get_weather "get_weather" wargs
        = Except.ok (get_weather wargs) ∧
    Retrieval.call_function search_knowledge "search_knowledge" rargs
        = Except.ok (search_knowledge rargs) ∧
    Retrieval.call_function search_knowledge "fallback_answer" rargs
        = Except.ok (Retrieval.fallback_answer rargs) := by
  refine ⟨fun hW => ?_, fun hR1 hR2 => ?_, ?_, ?_, ?_⟩ <;>
    simp [Tools.call_function, Retrieval.call_function, *]

/-- Witness for C1 at concrete cross-registry names (a name registered
only in the other script still raises) and a concrete registered tool. -/
theorem C1_call_function_registry_witness :
    Tools.call_function (fun a : Tools.WeatherArgs => a.latitude)
        "search_knowledge" ⟨1, 2⟩
        = Except.error (ToolError.unknownTool "search_knowledge") ∧
    Retrieval.call_function (fun q => q) "get_weather" "hi"
        = Except.error (ToolError.unknownTool "get_weather") ∧
    Tools.call_function (fun a : Tools.WeatherArgs => a.latitude)
        "get_weather" ⟨1, 2⟩ = Except.ok 1 :=
  ⟨(C1_call_function_registry (fun a => a.latitude) (fun q => q)
      "search_knowledge" ⟨1, 2⟩ "hi").1 (by decide),
   (C1_call_function_registry (fun a => a.latitude) (fun q => q)
      "get_weather" ⟨1, 2⟩ "hi").2.1 (by decide) (by decide),
   (C1_call_function_registry (fun a => a.latitude) (fun q => q)
      "get_weather" ⟨1, 2⟩ "hi").2.2.1⟩

namespace Chaining
/-! Embedding of `2-workflow-patterns/1_prompt_chaining.py`. -/

/-- Model of `EventExtraction` pydantic model of the first LLM call. -/
structure EventExtraction where
  description : String
  is_calendar_event : Bool
  confidence_score : Rat
deriving DecidableEq, Repr

/-- Model of `EventDetails` pydantic model of the second LLM call. -/
structure EventDetails where
  name : String
  date : String
  duration_minutes : Int
  participants : List String
deriving DecidableEq, Repr

/-- Model of `EventConfirmation` pydantic model of the third LLM call. -/
structure EventConfirmation where
  confirmation_message : String
  calendar_link : Option String
deriving DecidableEq, Repr

/-- Oracle for the three remote LLM calls of the chain: each component
gives the `.parsed` value of the corresponding completion. -/
structure ChainOracle where
  extract_parsed : String → Option EventExtraction
  details_parsed : String → Option EventDetails
  confirm_parsed : EventDetails → Option EventConfirmation

/-- Model of `extract_event_info`: first LLM call; returns `None` when the parse
is `None`, otherwise the parsed result. -/
def extract_event_info (oracle : ChainOracle) (user_input : String) :
    Option EventExtraction :=
  match oracle.extract_parsed user_input with
  | none => none
  | some result => some result

/-- Model of `parse_event_details`: second LLM call; returns the parsed result
(possibly `None`) unchecked. -/
def parse_event_details (oracle : ChainOracle) (description : String) :
    Option EventDetails :=
  oracle.details_parsed description

/-- Model of `generate_confirmation`: third LLM call; returns the parsed result. -/
def generate_confirmation (oracle : ChainOracle)
    (event_details : EventDetails) : Option EventConfirmation :=
  oracle.confirm_parsed event_details

/-- The three remote stages of the chain, for tracking which LLM calls
a run performs. -/
inductive Stage where
  | extract
  | details
  | confirm
deriving DecidableEq, Repr

/-- Model of `process_calendar_request` of `1_prompt_chaining.py`: first call,
gate check (`not is_calendar_event or confidence_score < 8/10`), second
call, third call. -/
def process_calendar_request (oracle : ChainOracle) (user_input : String) :
    Option EventConfirmation :=
  match extract_event_info oracle user_input with
  | none => none
  | some info_extraction =>
      if info_extraction.is_calendar_event = false
          ∨ info_extraction.confidence_score < 8/10 then none
      else
        match parse_event_details oracle info_extraction.description with
        | none => none
        | some event_details => generate_confirmation oracle event_details

/-- Instrumented copy of `process_calendar_request` that also records
which remote stages were invoked. -/
def process_calendar_request_trace (oracle : ChainOracle)
    (user_input : String) : Option EventConfirmation × List Stage :=
  match extract_event_info oracle user_input with
  | none => (none, [Stage.extract])
  | some info_extraction =>
      if info_extraction.is_calendar_event = false
          ∨ info_extraction.confidence_score < 8/10 then
        (none, [Stage.extract])
      else
        match parse_event_details oracle info_extraction.description with
        | none => (none, [Stage.extract, Stage.details])
        | some event_details =>
            (generate_confirmation oracle event_details,
             [Stage.extract, Stage.details, Stage.confirm])

/-- The instrumented chain computes the same result as the plain one. -/
theorem chain_trace_computes_process (oracle : ChainOracle)
    (user_input : String) :
    (process_calendar_request_trace oracle user_input).1
      = process_calendar_request oracle user_input := by
  unfold process_calendar_request_trace process_calendar_request
  cases extract_event_info oracle user_input with
  | none => rfl
  | some info =>
      dsimp only
      by_cases hgate : info.is_calendar_event = false
          ∨ info.confidence_score < 8/10
      · rw [if_pos hgate, if_pos hgate]
      · rw [if_neg hgate, if_neg hgate]
        cases parse_event_details oracle info.description <;> rfl

end Chaining

namespace Routing
/-! Embedding of `2-workflow-patterns/2_routing.py`. -/

/-- The `Literal["NEW", "MODIFY", "OTHER"]` request type. -/
inductive RequestType where
  | NEW
  | MODIFY
  | OTHER
deriving DecidableEq, Repr

/-- Model of `CalendarRequestType` pydantic model of the router LLM call. -/
structure CalendarRequestType where
  request_type : RequestType
  confidence_score : Rat
  description : String
deriving DecidableEq, Repr

/-- Model of `NewEventDetails` pydantic model. -/
structure NewEventDetails where
  name : String
  date : String
  duration_minutes : Int
  participants : List String
deriving DecidableEq, Repr

/-- Model of `ModifiedDetails` pydantic model (a single field change). -/
structure ModifiedDetails where
  field : String
  new_value : String
deriving DecidableEq, Repr

/-- Model of `ModifyEventDetails` pydantic model. -/
structure ModifyEventDetails where
  event_identifier : String
  changes : List ModifiedDetails
  participants_to_add : List String
  participants_to_remove : List String
deriving DecidableEq, Repr

/-- Model of `CalendarResponse` pydantic model: the final response format. -/
structure CalendarResponse where
  success : Bool
  message : String
  calendar_link : Option String
deriving DecidableEq, Repr

/-- Oracle for the remote LLM calls of the routing workflow. -/
structure RouteOracle where
  route_parsed : String → Option CalendarRequestType
  new_details_parsed : String → Option NewEventDetails
  modify_details_parsed : String → Option ModifyEventDetails

/-- Model of `route_calendar_request`: router LLM call; `None` when the parse is
`None`, otherwise the parsed result. -/
def route_calendar_request (oracle : RouteOracle) (user_input : String) :
    Option CalendarRequestType :=
  match oracle.route_parsed user_input with
  | none => none
  | some result => some result

/-- Model of `handle_new_event`: second LLM call, then a fixed successful
response with a `calendar://new?event=` link. -/
def handle_new_event (oracle : RouteOracle) (description : String) :
    Option CalendarResponse :=
  match oracle.new_details_parsed description with
  | none => none
  | some details =>
      some { success := true,
             message := "Created new event \x27" ++ details.name
               ++ "\x27 for " ++ details.date ++ " with "
               ++ String.intercalate ", " details.participants,
             calendar_link := some ("calendar://new?event=" ++ details.name) }

/-- Model of `handle_modify_event`: second LLM call, then a fixed successful
response with a `calendar://modify?event=` link. -/
def handle_modify_event (oracle : RouteOracle) (description : String) :
    Option CalendarResponse :=
  match oracle.modify_details_parsed description with
  | none => none
  | some details =>
      some { success := true,
             message := "Modified event \x27" ++ details.event_identifier
               ++ "\x27 with the requested changes",
             calendar_link :=
               some ("calendar://modify?event=" ++ details.event_identifier) }

/-- The remote stages of the routing workflow, for tracking which calls
a run performs. -/
inductive Stage where
  | route
  | newEvent
  | modifyEvent
deriving DecidableEq, Repr

/-- Model of `process_calendar_request` of `2_routing.py`: route, confidence
gate (`confidence_score < 7/10`), then dispatch on `request_type`. -/
def process_calendar_request (oracle : RouteOracle) (user_input : String) :
    Option CalendarResponse :=
  match route_calendar_request oracle user_input with
  | none => none
  | some route_result =>
      if route_result.confidence_score < 7/10 then none
      else
        match route_result.request_type with
        | RequestType.NEW => handle_new_event oracle route_result.description
        | RequestType.MODIFY =>
            handle_modify_event oracle route_result.description
        | RequestType.OTHER => none

/-- Instrumented copy of `process_calendar_request` that also records
which handlers were invoked. -/
def process_calendar_request_trace (oracle : RouteOracle)
    (user_input : String) : Option CalendarResponse × List Stage :=
  match route_calendar_request oracle user_input with
  | none => (none, [Stage.route])
  | some route_result =>
      if route_result.confidence_score < 7/10 then (none, [Stage.route])
      else
        match route_result.request_type with
        | RequestType.NEW =>
            (handle_new_event oracle route_result.description,
             [Stage.route, Stage.newEvent])
        | RequestType.MODIFY =>
            (handle_modify_event oracle route_result.description,
             [Stage.route, Stage.modifyEvent])
        | RequestType.OTHER => (none, [Stage.route])

/-- The instrumented routing workflow computes the same result as the
plain one. -/
theorem routing_trace_computes_process (oracle : RouteOracle)
    (user_input : String) :
    (process_calendar_request_trace oracle user_input).1
      = process_calendar_request oracle user_input := by
  unfold process_calendar_request_trace process_calendar_request
  cases route_calendar_request oracle user_input with
  | none => rfl
  | some route_result =>
      dsimp only
      by_cases hconf : route_result.confidence_score < 7/10
      · rw [if_pos hconf, if_pos hconf]
      · rw [if_neg hconf, if_neg hconf]
        cases route_result.request_type <;> rfl

end Routing

namespace Structured
/-! Embedding of `1-introduction/2-structured.py` (structured output). -/

/-- Model of `CalendarEvent` pydantic model of `2-structured.py`. -/
structure CalendarEvent where
  name : String
  date : String
  participants : List String
deriving DecidableEq, Repr

/-- The tail of `2-structured.py`: `event = completion...parsed`
followed by the unchecked accesses `event.date`, `event.name`,
`event.participants`. -/
def event_field_access (parsed : Option CalendarEvent) :
    Except PyError (String × String × List String) := do
  let event := parsed
  let d ← getAttr event CalendarEvent.date
  let n ← getAttr event CalendarEvent.name
  let p ← getAttr event CalendarEvent.participants
  pure (d, n, p)

end Structured

namespace Sample

def chainNone : Chaining.ChainOracle :=
  ⟨fun _ => none, fun _ => none, fun _ => none⟩

def routeNone : Routing.RouteOracle :=
  ⟨fun _ => none, fun _ => none, fun _ => none⟩

def infoLow : Chaining.EventExtraction := ⟨"d", true, 1/2⟩

def chainLow : Chaining.ChainOracle :=
  ⟨fun _ => some infoLow, fun _ => none, fun _ => none⟩

def routeLowResult : Routing.CalendarRequestType :=
  ⟨Routing.RequestType.NEW, 1/2, "d"⟩

def routeLow : Routing.RouteOracle :=
  ⟨fun _ => some routeLowResult, fun _ => none, fun _ => none⟩

def newDetails : Routing.NewEventDetails :=
  ⟨"Standup", "2025-04-22T10:00", 30, ["Alice", "Bob"]⟩

def routeBoundaryResult : Routing.CalendarRequestType :=
  ⟨Routing.RequestType.NEW, 7/10, "d"⟩

def routeBoundary : Routing.RouteOracle :=
  ⟨fun _ => some routeBoundaryResult, fun _ => some newDetails, fun _ => none⟩

def infoBoundary : Chaining.EventExtraction := ⟨"d", true, 8/10⟩

def chainBoundary : Chaining.ChainOracle :=
  ⟨fun _ => some infoBoundary, fun _ => none, fun _ => none⟩

def routeNew : Routing.RouteOracle :=
  ⟨fun _ => some ⟨Routing.RequestType.NEW, 1, "d"⟩,
   fun _ => some newDetails, fun _ => none⟩

def newResponse : Routing.CalendarResponse :=
  { success := true,
    message := "Created new event \x27Standup\x27 for 2025-04-22T10:00 with Alice, Bob",
    calendar_link := some "calendar://new?event=Standup" }

end Sample

/-- C2: when the structured parse of a model response is absent
(`None`), the parse step yields `None` and both `extract_event_info`
and `route_calendar_request` propagate that null to their caller, all
the way through the top-level workflow functions. -/
theorem C2_null_parse_propagates (coracle : Chaining.ChainOracle)
    (roracle : Routing.RouteOracle) (cinput rinput : String)
    (hc : coracle.extract_parsed cinput = none)
    (hr : roracle.route_parsed rinput = none) :
    Chaining.extract_event_info coracle cinput = none ∧
    Routing.route_calendar_request roracle rinput = none ∧
    Chaining.process_calendar_request coracle cinput = none ∧
    Routing.process_calendar_request roracle rinput = none := by
  have h1 : Chaining.extract_event_info coracle cinput = none := by
    unfold Chaining.extract_event_info
    rw [hc]
  have h2 : Routing.route_calendar_request roracle rinput = none := by
    unfold Routing.route_calendar_request
    rw [hr]
  refine ⟨h1, h2, ?_, ?_⟩
  · unfold Chaining.process_calendar_request
    rw [h1]
  · unfold Routing.process_calendar_request
    rw [h2]

/-- Witness for C2: oracles whose parse is always `None`. -/
theorem C2_null_parse_propagates_witness :
    Chaining.process_calendar_request Sample.chainNone "x" = none ∧
    Routing.process_calendar_request Sample.routeNone "x" = none :=
  ⟨(C2_null_parse_propagates Sample.chainNone Sample.routeNone "x" "x"
      rfl rfl).2.2.1,
   (C2_null_parse_propagates Sample.chainNone Sample.routeNone "x" "x"
      rfl rfl).2.2.2⟩

/-- C3: a routed request whose confidence score is below `0.7` makes
the routing workflow return `None` regardless of `request_type`, and
neither `handle_new_event` nor `handle_modify_event` is invoked. -/
theorem C3_routing_low_confidence (oracle : Routing.RouteOracle)
    (user_input : String) (route_result : Routing.CalendarRequestType)
    (hroute : oracle.route_parsed user_input = some route_result)
    (hconf : route_result.confidence_score < 7/10) :
    Routing.process_calendar_request oracle user_input = none ∧
    (Routing.process_calendar_request_trace oracle user_input).2
      = [Routing.Stage.route] := by
  have hr : Routing.route_calendar_request oracle user_input
      = some route_result := by
    unfold Routing.route_calendar_request
    rw [hroute]
  constructor
  · unfold Routing.process_calendar_request
    rw [hr]
    dsimp only
    rw [if_pos hconf]
  · unfold Routing.process_calendar_request_trace
    rw [hr]
    dsimp only
    rw [if_pos hconf]

/-- Witness for C3: a routed request with confidence `1/2`. -/
theorem C3_routing_low_confidence_witness :
    Routing.process_calendar_request Sample.routeLow "x" = none :=
  (C3_routing_low_confidence Sample.routeLow "x" Sample.routeLowResult rfl
    (by norm_num [Sample.routeLowResult])).1

/-- C6: in the prompt chain, a successful extraction whose
`is_calendar_event` is false or whose confidence score is below `0.8`
makes the workflow return `None` with no further remote calls. -/
theorem C6_chaining_gate (oracle : Chaining.ChainOracle)
    (user_input : String) (info : Chaining.EventExtraction)
    (hx : oracle.extract_parsed user_input = some info)
    (hgate : info.is_calendar_event = false ∨ info.confidence_score < 8/10) :
    Chaining.process_calendar_request oracle user_input = none ∧
    (Chaining.process_calendar_request_trace oracle user_input).2
      = [Chaining.Stage.extract] := by
  have hi : Chaining.extract_event_info oracle user_input = some info := by
    unfold Chaining.extract_event_info
    rw [hx]
  constructor
  · unfold Chaining.process_calendar_request
    rw [hi]
    dsimp only
    rw [if_pos hgate]
  · unfold Chaining.process_calendar_request_trace
    rw [hi]
    dsimp only
    rw [if_pos hgate]

/-- Witness for C6: a calendar-event extraction with confidence `1/2`. -/
theorem C6_chaining_gate_witness :
    Chaining.process_calendar_request Sample.chainLow "x" = none :=
  (C6_chaining_gate Sample.chainLow "x" Sample.infoLow rfl
    (Or.inr (by norm_num [Sample.infoLow]))).1

/-- C8: the confidence gates are strict: a parsed confidence score
exactly equal to the threshold (`0.7` for routing, `0.8` for chaining
with `is_calendar_event` true) passes the gate, and processing
continues to the dispatch / second stage. -/
theorem C8_gate_boundary_strict
    (roracle : Routing.RouteOracle) (coracle : Chaining.ChainOracle)
    (rinput cinput : String)
    (route_result : Routing.CalendarRequestType)
    (info : Chaining.EventExtraction)
    (hr : roracle.route_parsed rinput = some route_result)
    (hrc : route_result.confidence_score = 7/10)
    (hc : coracle.extract_parsed cinput = some info)
    (hcal : info.is_calendar_event = true)
    (hcc : info.confidence_score = 8/10) :
    Routing.process_calendar_request roracle rinput
      = (match route_result.request_type with
         | Routing.RequestType.NEW =>
             Routing.handle_new_event roracle route_result.description
         | Routing.RequestType.MODIFY =>
             Routing.handle_modify_event roracle route_result.description
         | Routing.RequestType.OTHER => none) ∧
    Chaining.process_calendar_request coracle cinput
      = (match Chaining.parse_event_details coracle info.description with
         | none => none
         | some event_details =>
             Chaining.generate_confirmation coracle event_details) := by
  have hnr : ¬ route_result.confidence_score < 7/10 := by
    rw [hrc]
    exact lt_irrefl _
  have hng : ¬ (info.is_calendar_event = false
      ∨ info.confidence_score < 8/10) := by
    rw [hcal, hcc]
    simp
  constructor
  · have hroute : Routing.route_calendar_request roracle rinput
        = some route_result := by
      unfold Routing.route_calendar_request
      rw [hr]
    unfold Routing.process_calendar_request
    rw [hroute]
    dsimp only
    rw [if_neg hnr]
  · have hinfo : Chaining.extract_event_info coracle cinput
        = some info := by
      unfold Chaining.extract_event_info
      rw [hc]
    unfold Chaining.process_calendar_request
    rw [hinfo]
    dsimp only
    rw [if_neg hng]

/-- Witness for C8: confidence exactly `0.7` (routing) and `0.8`
(chaining). -/
theorem C8_gate_boundary_strict_witness :
    Routing.process_calendar_request Sample.routeBoundary "x"
      = Routing.handle_new_event Sample.routeBoundary "d" ∧
    Chaining.process_calendar_request Sample.chainBoundary "x" = none :=
  ⟨(C8_gate_boundary_strict Sample.routeBoundary Sample.chainBoundary "x" "x"
      Sample.routeBoundaryResult Sample.infoBoundary rfl rfl rfl rfl rfl).1,
   (C8_gate_boundary_strict Sample.routeBoundary Sample.chainBoundary "x" "x"
      Sample.routeBoundaryResult Sample.infoBoundary rfl rfl rfl rfl rfl).2⟩

/-- C9: every non-`None` response of the routing workflow has
`success = true` and a non-null calendar link starting with
`calendar://`; the workflow never returns a failed response. -/
theorem C9_routing_response_invariant (oracle : Routing.RouteOracle)
    (user_input : String) (r : Routing.CalendarResponse)
    (h : Routing.process_calendar_request oracle user_input = some r) :
    r.success = true ∧ r.calendar_link.isSome = true ∧
    "calendar://".data <+: (r.calendar_link.getD "").data := by
  unfold Routing.process_calendar_request at h
  cases hroute : Routing.route_calendar_request oracle user_input with
  | none => rw [hroute] at h; cases h
  | some route_result =>
      rw [hroute] at h
      dsimp only at h
      by_cases hconf : route_result.confidence_score < 7/10
      · rw [if_pos hconf] at h; cases h
      · rw [if_neg hconf] at h
        cases hty : route_result.request_type with
        | NEW =>
            rw [hty] at h
            unfold Routing.handle_new_event at h
            cases hd : oracle.new_details_parsed route_result.description with
            | none => rw [hd] at h; cases h
            | some details =>
                rw [hd] at h
                dsimp only at h
                injection h with h
                subst h
                refine ⟨rfl, rfl, "new?event=".data ++ details.name.data, ?_⟩
                show "calendar://".data ++ ("new?event=".data ++ details.name.data)
                  = ("calendar://new?event=" ++ details.name).data
                rw [String.data_append, ← List.append_assoc]
                rfl
        | MODIFY =>
            rw [hty] at h
            unfold Routing.handle_modify_event at h
            cases hd : oracle.modify_details_parsed route_result.description with
            | none => rw [hd] at h; cases h
            | some details =>
                rw [hd] at h
                dsimp only at h
                injection h with h
                subst h
                refine ⟨rfl, rfl,
                  "modify?event=".data ++ details.event_identifier.data, ?_⟩
                show "calendar://".data
                    ++ ("modify?event=".data ++ details.event_identifier.data)
                  = ("calendar://modify?event=" ++ details.event_identifier).data
                rw [String.data_append, ← List.append_assoc]
                rfl
        | OTHER => rw [hty] at h; cases h

/-- Witness for C9: a high-confidence NEW request with parsed details. -/
theorem C9_routing_response_invariant_witness :
    Sample.newResponse.success = true ∧
    Sample.newResponse.calendar_link.isSome = true ∧
    "calendar://".data <+: (Sample.newResponse.calendar_link.getD "").data :=
  C9_routing_response_invariant Sample.routeNew "x" Sample.newResponse
    (by
      unfold Routing.process_calendar_request
      rw [show Routing.route_calendar_request Sample.routeNew "x"
          = some ⟨Routing.RequestType.NEW, 1, "d"⟩ from rfl]
      dsimp only
      rw [if_neg (show ¬ (1 : Rat) < 7/10 by norm_num)]
      rfl)

/-- C7 counterexample: at the concrete input of a null parse, the
structured-output script and the weather script raise `AttributeError`
while accessing the fields of the parsed result, so the top-level flows
do not treat a malformed response as an empty result without raising. -/
theorem C7_null_parse_crash_counterexample :
    Structured.event_field_access none = Except.error PyError.attributeError ∧
    Tools.final_response_access none = Except.error PyError.attributeError :=
  ⟨rfl, rfl⟩

/-- C7 (amended): the workflow scripts (prompt chaining and routing)
treat a null parse as a `None` result without raising, but the
structured-output and weather scripts access the fields of the parsed
result unconditionally, so a null parse there raises `AttributeError`. -/
theorem C7_null_parse_behavior (coracle : Chaining.ChainOracle)
    (roracle : Routing.RouteOracle) (cinput rinput : String)
    (parsedS : Option Structured.CalendarEvent)
    (parsedW : Option Tools.WeatherResponse)
    (hc : coracle.extract_parsed cinput = none)
    (hr : roracle.route_parsed rinput = none)
    (hs : parsedS = none) (hw : parsedW = none) :
    Chaining.process_calendar_request coracle cinput = none ∧
    Routing.process_calendar_request roracle rinput = none ∧
    Structured.event_field_access parsedS
      = Except.error PyError.attributeError ∧
    Tools.final_response_access parsedW
      = Except.error PyError.attributeError := by
  subst hs
  subst hw
  have h1 : Chaining.extract_event_info coracle cinput = none := by
    unfold Chaining.extract_event_info
    rw [hc]
  have h2 : Routing.route_calendar_request roracle rinput = none := by
    unfold Routing.route_calendar_request
    rw [hr]
  refine ⟨?_, ?_, rfl, rfl⟩
  · unfold Chaining.process_calendar_request
    rw [h1]
  · unfold Routing.process_calendar_request
    rw [h2]

/-- Witness for the amended C7 at concrete null parses. -/
theorem C7_null_parse_behavior_witness :
    Chaining.process_calendar_request Sample.chainNone "x" = none ∧
    Structured.event_field_access (none : Option Structured.CalendarEvent)
      = Except.error PyError.attributeError :=
  ⟨(C7_null_parse_behavior Sample.chainNone Sample.routeNone "x" "x"
      none none rfl rfl rfl rfl).1,
   (C7_null_parse_behavior Sample.chainNone Sample.routeNone "x" "x"
      none none rfl rfl rfl rfl).2.2.1⟩
